import Mathlib

/-!
# Verification of the Ayurvedic Cosmetics API backend (`src/main.py`)

Shallow embedding of the FastAPI backend in `src/main.py` (with collection
schemas from `src/schemas.py`).  The document store (MongoDB accessed through
`db` / `create_document`) is modelled as insertion-ordered lists of typed
documents: `find` returns the matching documents in insertion ("natural")
order, `find_one` returns the first match, inserts append, and a sort on the
store is modelled as a stable sort by the requested key (equal keys keep their
prior relative order).  Python numbers for prices/ratings/amounts are modelled
as exact rationals (`ℚ`); quantities, ids and counters as integers.

The handlers take an `Option DB`: `none` models `db is None` (no store
configured, the "mock" mode of the source), `some db` models a configured
store with state `db`.  A handler that raises `HTTPException` is modelled as
returning `Except.error`; since the Python exception aborts the handler before
any subsequent write, an error result carries no state change.

Mongo `$regex` filters with option `"i"` are modelled as case-insensitive
substring containment (the lowering is ASCII `A`–`Z`, which matches regex
case-folding on the ASCII data of this application; the patterns considered
here contain no regex metacharacters).  Mongo string comparison is modelled as
lexicographic order on the character sequence, which agrees with Mongo's
binary UTF-8 comparison on ASCII data.
-/

/-- A document of the `product` collection (`class Product` in `src/main.py`,
`Product` in `src/schemas.py`). -/
structure Product where
  id : Int
  name : String
  description : String
  category : String
  price : ℚ
  image : String
  ingredients : List String
  rating : ℚ
  reviews : Int
  stock : Int
  popularity : Int
deriving Repr, DecidableEq

/-- A document of the `cart` collection: the dict inserted by `add_to_cart`
(`CartItem` in `src/schemas.py`). -/
structure CartItem where
  cart_id : String
  product_id : Int
  qty : Int
deriving Repr, DecidableEq

/-- A document of the `order` collection: the `order_doc` dict built by
`checkout` (`Order` in `src/schemas.py`; named `OrderDoc` here only because
`Order` is a root namespace of Mathlib). -/
structure OrderDoc where
  cart_id : String
  items : List CartItem
  total : ℚ
  email : Option String
  status : String
deriving Repr, DecidableEq

/-- The state of the document store: the three collections used by the
handlers, each as an insertion-ordered list of documents. -/
structure DB where
  products : List Product
  cart : List CartItem
  orders : List OrderDoc
deriving Repr, DecidableEq

/-- An `HTTPException(status_code=..., detail=...)` raised by a handler. -/
structure HTTPError where
  status : Nat
  detail : String
deriving Repr, DecidableEq

/-! ## String helpers: the `$regex ... $options: "i"` filters -/

/-- ASCII lowering of one character (`A`–`Z` to `a`–`z`), the case folding
performed by the case-insensitive regex match on this application's ASCII
data. -/
def ascii_lower (c : Char) : Char :=
  if 65 ≤ c.toNat ∧ c.toNat ≤ 90 then Char.ofNat (c.toNat + 32) else c

/-- `contains_chars l p`: the character list `p` occurs contiguously inside
`l`. -/
def contains_chars (l p : List Char) : Bool :=
  match l with
  | [] => p.isEmpty
  | _ :: t => p.isPrefixOf l || contains_chars t p

/-- Case-insensitive substring test: the semantics of a Mongo
`{"$regex": pat, "$options": "i"}` condition on a string field, for patterns
without regex metacharacters. -/
def regex_ci_contains (s pat : String) : Bool :=
  contains_chars (s.data.map ascii_lower) (pat.data.map ascii_lower)

/-! ## Rounding

`round(x, 2)` of Python: round to the nearest multiple of `1/100`, ties to
the even multiple (banker's rounding), modelled over exact rationals. -/

/-- Python's `round(x, 2)` over the exact-rational model: nearest multiple of
`1/100`, ties to even. -/
def round2 (x : ℚ) : ℚ :=
  let s := x * 100
  let f : Int := ⌊s⌋
  let r : ℚ := s - f
  let n : Int :=
    if r < 1/2 then f
    else if 1/2 < r then f + 1
    else if f % 2 = 0 then f else f + 1
  (n : ℚ) / 100

/-! ## Seed / fallback data

`ensure_seed_data` seeds these six products into the `product` collection
(one-time, only when the collection is empty); the `fallback` list literal in
`list_products` repeats exactly the same six records, so we share one
definition.  The six documents are transcribed verbatim from `src/main.py`. -/

/-- Seed product 1 of `ensure_seed_data` / element 1 of `fallback`. -/
def product1 : Product :=
  { id := 1
    name := "Sandalwood Glow Serum"
    description := "A lightweight serum infused with pure sandalwood and saffron to brighten and calm the skin."
    category := "Face Care"
    price := 24.99
    image := "https://images.unsplash.com/photo-1611930022073-b7a4ba5fcccd?q=80&w=1200&auto=format&fit=crop"
    ingredients := ["Sandalwood", "Saffron", "Aloe Vera"]
    rating := 4.7
    reviews := 213
    stock := 42
    popularity := 940 }

/-- Seed product 2 of `ensure_seed_data` / element 2 of `fallback`. -/
def product2 : Product :=
  { id := 2
    name := "Turmeric Repair Cream"
    description := "Rich moisturizer with turmeric and ashwagandha for overnight repair and glow."
    category := "Face Care"
    price := 19.5
    image := "https://images.unsplash.com/photo-1604881991720-f91add269bed?q=80&w=1200&auto=format&fit=crop"
    ingredients := ["Turmeric", "Ashwagandha", "Ghee"]
    rating := 4.6
    reviews := 156
    stock := 30
    popularity := 780 }

/-- Seed product 3 of `ensure_seed_data` / element 3 of `fallback`. -/
def product3 : Product :=
  { id := 3
    name := "Neem & Tulsi Cleanser"
    description := "Purifying gel cleanser with neem and tulsi to balance oil and clarify pores."
    category := "Face Care"
    price := 12.0
    image := "https://images.unsplash.com/photo-1612815154858-60aa4c59eaa0?q=80&w=1200&auto=format&fit=crop"
    ingredients := ["Neem", "Tulsi", "Basil"]
    rating := 4.4
    reviews := 98
    stock := 75
    popularity := 620 }

/-- Seed product 4 of `ensure_seed_data` / element 4 of `fallback`. -/
def product4 : Product :=
  { id := 4
    name := "Amla Shine Hair Oil"
    description := "Nourishing hair oil with amla and bhringraj for strong, glossy hair."
    category := "Hair Care"
    price := 15.99
    image := "https://images.unsplash.com/photo-1608245449230-c0aeee29fc61?q=80&w=1200&auto=format&fit=crop"
    ingredients := ["Amla", "Bhringraj", "Coconut Oil"]
    rating := 4.5
    reviews := 321
    stock := 120
    popularity := 1100 }

/-- Seed product 5 of `ensure_seed_data` / element 5 of `fallback`. -/
def product5 : Product :=
  { id := 5
    name := "Rose & Vetiver Body Butter"
    description := "Deeply hydrating body butter with shea, rose, and vetiver for satin-soft skin."
    category := "Body Care"
    price := 17.25
    image := "https://images.unsplash.com/photo-1619451334792-2506e2a5c1e5?q=80&w=1200&auto=format&fit=crop"
    ingredients := ["Rose", "Vetiver", "Shea Butter"]
    rating := 4.8
    reviews := 89
    stock := 28
    popularity := 540 }

/-- Seed product 6 of `ensure_seed_data` / element 6 of `fallback`. -/
def product6 : Product :=
  { id := 6
    name := "Sandal-Turmeric Ubtan"
    description := "Traditional Ayurvedic ubtan blend for exfoliation and glow."
    category := "Body Care"
    price := 9.99
    image := "https://images.unsplash.com/photo-1516826957135-700dedea698c?q=80&w=1200&auto=format&fit=crop"
    ingredients := ["Sandalwood", "Turmeric", "Gram Flour"]
    rating := 4.3
    reviews := 45
    stock := 64
    popularity := 430 }

/-- The six seed products of `ensure_seed_data`, in seeding order. -/
def seed_products : List Product :=
  [product1, product2, product3, product4, product5, product6]

/-- The static fallback dataset returned by `list_products` when `db is None`.
Its literal in the source repeats the seed data verbatim. -/
def fallback : List Product := seed_products

/-! ## The query engine: `GET /api/products` (`list_products`) -/

/-- The query parameters of `list_products`.  `none` models an omitted
parameter. -/
structure Filters where
  category : Option String := none
  ingredient : Option String := none
  q : Option String := none
  min_price : Option ℚ := none
  max_price : Option ℚ := none
  sort : Option String := none

/-- `if category: query["category"] = category` — a Mongo equality condition
on `category` (exact, case-sensitive).  An omitted or empty (falsy) value adds
no condition. -/
def category_matches (f : Filters) (p : Product) : Bool :=
  match f.category with
  | none => true
  | some c => if c = "" then true else p.category == c

/-- `if ingredient: query["ingredients"] = {"$regex": ingredient,
"$options": "i"}` — on an array field, Mongo matches when ANY element matches
the case-insensitive regex. -/
def ingredient_matches (f : Filters) (p : Product) : Bool :=
  match f.ingredient with
  | none => true
  | some i => if i = "" then true else p.ingredients.any fun x => regex_ci_contains x i

/-- `if q: query["$or"] = [name regex, description regex]` — case-insensitive
substring against name OR description. -/
def q_matches (f : Filters) (p : Product) : Bool :=
  match f.q with
  | none => true
  | some s =>
    if s = "" then true
    else regex_ci_contains p.name s || regex_ci_contains p.description s

/-- The `query["price"]` condition: `$gte min_price` and/or `$lte max_price`,
each only when supplied (`is not None`). -/
def price_matches (f : Filters) (p : Product) : Bool :=
  (match f.min_price with
   | none => true
   | some m => decide (m ≤ p.price)) &&
  (match f.max_price with
   | none => true
   | some m => decide (p.price ≤ m))

/-- The full Mongo query built by `list_products`: the conjunction of the four
conditions. -/
def matches_query (f : Filters) (p : Product) : Bool :=
  category_matches f p && ingredient_matches f p && q_matches f p && price_matches f p

/-- Comparator of `sort_spec = [("price", 1)]`. -/
def price_le (a b : Product) : Prop := a.price ≤ b.price

/-- Comparator of `sort_spec = [("price", -1)]`. -/
def price_ge (a b : Product) : Prop := b.price ≤ a.price

/-- Comparator of `sort_spec = [("name", 1)]`: lexicographic on the character
sequence of `name`. -/
def name_le (a b : Product) : Prop := a.name.data ≤ b.name.data

/-- Comparator of `sort_spec = [("name", -1)]`. -/
def name_ge (a b : Product) : Prop := b.name.data ≤ a.name.data

/-- Comparator of `sort_spec = [("popularity", -1)]`. -/
def pop_ge (a b : Product) : Prop := b.popularity ≤ a.popularity

/-- Comparator of `sort_spec = [("rating", -1)]`. -/
def rating_ge (a b : Product) : Prop := b.rating ≤ a.rating

instance : DecidableRel price_le := fun a b => inferInstanceAs (Decidable (a.price ≤ b.price))
instance : DecidableRel price_ge := fun a b => inferInstanceAs (Decidable (b.price ≤ a.price))
instance : DecidableRel name_le := fun a b => inferInstanceAs (Decidable (a.name.data ≤ b.name.data))
instance : DecidableRel name_ge := fun a b => inferInstanceAs (Decidable (b.name.data ≤ a.name.data))
instance : DecidableRel pop_ge := fun a b => inferInstanceAs (Decidable (b.popularity ≤ a.popularity))
instance : DecidableRel rating_ge := fun a b => inferInstanceAs (Decidable (b.rating ≤ a.rating))

/-- The `sort` dispatch of `list_products`: exactly the six recognized keys
produce a `sort_spec`; any other (or omitted) value leaves `sort_spec = None`
and the cursor is not reordered.  A store sort on one key is modelled as a
stable sort by that key. -/
def sort_products (sort : Option String) (l : List Product) : List Product :=
  match sort with
  | some "price_asc" => l.insertionSort price_le
  | some "price_desc" => l.insertionSort price_ge
  | some "name_asc" => l.insertionSort name_le
  | some "name_desc" => l.insertionSort name_ge
  | some "popularity" => l.insertionSort pop_ge
  | some "rating" => l.insertionSort rating_ge
  | _ => l

/-- `GET /api/products` (`list_products`).  With a store (`some db`): build
the query, `find`, optionally sort, and map the documents to the response
model (the mapping `doc.get(...)`-to-`Product` is the identity on our typed
documents).  Without a store (`none`): return the static `fallback` list —
the source applies no filtering and no sorting on this path. -/
def list_products (mdb : Option DB) (f : Filters) : List Product :=
  match mdb with
  | some db => sort_products f.sort (db.products.filter (matches_query f))
  | none => fallback

/-! ## Product lookup and cart handlers -/

/-- `db["product"].find_one({"id": pid})`: the first product document (in
insertion order) whose `id` equals `pid`. -/
def find_one_product (db : DB) (pid : Int) : Option Product :=
  db.products.find? fun p => p.id == pid

/-- Request body of `POST /api/cart/add` (`AddToCartRequest`): `qty` defaults
to `1` when missing. -/
structure AddToCartRequest where
  cart_id : String
  product_id : Int
  qty : Int := 1

/-- The `{"ok": True, "cart_id": ...}` response of `add_to_cart`. -/
structure AddToCartResponse where
  ok : Bool
  cart_id : String
deriving Repr, DecidableEq

/-- `POST /api/cart/add` (`add_to_cart`).  `db is None`: echo back without
touching anything ("mock mode").  Otherwise: validate the product exists
(404 `"Product not found"` aborts the handler before any write), then insert
a cart document with `qty = int(max(1, body.qty))`. -/
def add_to_cart (mdb : Option DB) (body : AddToCartRequest) :
    Except HTTPError (Option DB × AddToCartResponse) :=
  match mdb with
  | none => .ok (none, ⟨true, body.cart_id⟩)
  | some db =>
    match find_one_product db body.product_id with
    | none => .error ⟨404, "Product not found"⟩
    | some _ =>
      .ok (some { db with
            cart := db.cart ++ [⟨body.cart_id, body.product_id, max 1 body.qty⟩] },
          ⟨true, body.cart_id⟩)

/-- One element of the `"items"` list returned by `get_cart`. -/
structure CartLine where
  product_id : Int
  name : String
  price : ℚ
  qty : Int
  image : String
deriving Repr, DecidableEq

/-- `GET /api/cart/{cart_id}` (`get_cart`): fetch the cart documents (empty
when `db is None`), join each against its current product — skipping items
whose product does not resolve — and return the detailed lines plus
`round(total, 2)`. -/
def get_cart (mdb : Option DB) (cart_id : String) : List CartLine × ℚ :=
  let items : List CartItem :=
    match mdb with
    | some db => db.cart.filter fun it => it.cart_id == cart_id
    | none => []
  let acc : ℚ × List CartLine :=
    items.foldl
      (fun acc it =>
        match (match mdb with
               | some db => find_one_product db it.product_id
               | none => none) with
        | none => acc
        | some prod =>
          (acc.1 + prod.price * (it.qty : ℚ),
           acc.2 ++ [⟨prod.id, prod.name, prod.price, it.qty, prod.image⟩]))
      (0, [])
  (acc.2, round2 acc.1)

/-- Request body of `POST /api/checkout` (`CheckoutRequest`): only a cart id
and an optional email — no client-supplied total or prices. -/
structure CheckoutRequest where
  cart_id : String
  email : Option String := none

/-- Result payload of `checkout`: in mock mode (`db is None`) the source
returns `{"ok": True, "status": "mock", "order_id": uuid4()}` without
persisting anything (the random uuid is modelled opaquely); with a store it
returns the id of the created order document (modelled as the index the store
assigns to the inserted document). -/
inductive CheckoutResponse where
  | mock
  | created (order_id : Nat)
deriving Repr, DecidableEq

/-- The total accumulation loop of `checkout`: `total += price * qty` for
each item whose product resolves, items with an unresolvable product are
skipped (`continue`). -/
def cart_total (db : DB) (items : List CartItem) : ℚ :=
  items.foldl
    (fun acc it =>
      match find_one_product db it.product_id with
      | none => acc
      | some prod => acc + prod.price * (it.qty : ℚ))
    0

/-- `POST /api/checkout` (`checkout`).  `db is None`: mock success, nothing
persisted.  Otherwise: read the cart items; an empty cart aborts with
400 `"Cart is empty"` before any write; else compute the rounded total from
current product prices, persist the order document (snapshotting the raw
item records), and only then delete all cart documents of this `cart_id`. -/
def checkout (mdb : Option DB) (body : CheckoutRequest) :
    Except HTTPError (Option DB × CheckoutResponse) :=
  match mdb with
  | none => .ok (none, .mock)
  | some db =>
    let items := db.cart.filter fun it => it.cart_id == body.cart_id
    if items.isEmpty then .error ⟨400, "Cart is empty"⟩
    else
      let order_doc : OrderDoc :=
        { cart_id := body.cart_id
          items := items
          total := round2 (cart_total db items)
          email := body.email
          status := "created" }
      .ok (some { db with
            orders := db.orders ++ [order_doc],
            cart := db.cart.filter fun it => !(it.cart_id == body.cart_id) },
          .created db.orders.length)

/-- `checkout_total mdb body`: the total of the order document created by a
successful non-mock `checkout`, if any (the order is appended at the end of
the `order` collection). -/
def checkout_total (mdb : Option DB) (body : CheckoutRequest) : Option ℚ :=
  match checkout mdb body with
  | .ok (some db', _) => db'.orders.getLast?.map fun od => od.total
  | _ => none

/-- The six sort keys recognized by the dispatch in `list_products`; any
other value of the `sort` parameter leaves the cursor unsorted. -/
def recognized_sorts : List (Option String) :=
  [some "price_asc", some "price_desc", some "name_asc", some "name_desc",
   some "popularity", some "rating"]

/-- Modelled from the spec: "Compute total = Σ(price × qty), rounded to
2 decimals", where an item whose product no longer resolves is skipped, i.e.
contributes 0 to the sum.  Stated as a sum over the item list, to be compared
with the accumulation loop `cart_total` of the code. -/
def spec_total (db : DB) (items : List CartItem) : ℚ :=
  round2 ((items.map fun it =>
    match find_one_product db it.product_id with
    | none => 0
    | some prod => prod.price * (it.qty : ℚ)).sum)

instance : IsTotal Product price_le := ⟨fun a b => le_total a.price b.price⟩
instance : IsTrans Product price_le := ⟨fun _ _ _ h1 h2 => le_trans h1 h2⟩
instance : IsTotal Product price_ge := ⟨fun a b => le_total b.price a.price⟩
instance : IsTrans Product price_ge := ⟨fun _ _ _ h1 h2 => le_trans h2 h1⟩
instance : IsTotal Product name_le := ⟨fun a b => le_total a.name.data b.name.data⟩
instance : IsTrans Product name_le := ⟨fun _ _ _ h1 h2 => le_trans h1 h2⟩
instance : IsTotal Product name_ge := ⟨fun a b => le_total b.name.data a.name.data⟩
instance : IsTrans Product name_ge := ⟨fun _ _ _ h1 h2 => le_trans h2 h1⟩
instance : IsTotal Product pop_ge := ⟨fun a b => le_total b.popularity a.popularity⟩
instance : IsTrans Product pop_ge := ⟨fun _ _ _ h1 h2 => le_trans h2 h1⟩
instance : IsTotal Product rating_ge := ⟨fun a b => le_total b.rating a.rating⟩
instance : IsTrans Product rating_ge := ⟨fun _ _ _ h1 h2 => le_trans h2 h1⟩

/-- A product used only as a test fixture: seed product 1 with its category
written in lower case. -/
def product_lowercase : Product := { product1 with category := "face care" }

/-! ## Helper lemmas -/

theorem sort_products_none (l : List Product) : sort_products none l = l := rfl

theorem round2_zero : round2 0 = 0 := by norm_num [round2]

theorem sort_products_unrecognized (s : Option String) (hs : s ∉ recognized_sorts)
    (l : List Product) : sort_products s l = l := by
  unfold sort_products
  split
  · exact absurd (by simp [recognized_sorts, *]) hs
  · exact absurd (by simp [recognized_sorts, *]) hs
  · exact absurd (by simp [recognized_sorts, *]) hs
  · exact absurd (by simp [recognized_sorts, *]) hs
  · exact absurd (by simp [recognized_sorts, *]) hs
  · exact absurd (by simp [recognized_sorts, *]) hs
  · rfl

/-- Stability of the modelled store sort, phrased through a sort key: the
records carrying any fixed key value appear in the sorted output in exactly
their input order. -/
theorem filter_insertionSort_eq {K : Type} [DecidableEq K]
    (r : Product → Product → Prop) [DecidableRel r] (key : Product → K)
    (hkey : ∀ a b, key a = key b → r a b) (l : List Product) (v : K) :
    (l.insertionSort r).filter (fun p => decide (key p = v)) =
      l.filter (fun p => decide (key p = v)) := by
  have hmem : ∀ q ∈ l.filter (fun p => decide (key p = v)), key q = v := by
    intro q hq
    exact of_decide_eq_true (List.mem_filter.mp hq).2
  have hpair : (l.filter (fun p => decide (key p = v))).Pairwise r :=
    List.pairwise_of_forall_mem_list fun a ha b hb =>
      hkey a b ((hmem a ha).trans (hmem b hb).symm)
  have hsub : List.Sublist (l.filter (fun p => decide (key p = v))) (l.insertionSort r) :=
    List.sublist_insertionSort hpair (List.filter_sublist l)
  have hsub2 : List.Sublist (l.filter (fun p => decide (key p = v)))
      ((l.insertionSort r).filter (fun p => decide (key p = v))) := by
    have h2 := hsub.filter (fun p => decide (key p = v))
    simpa [List.filter_filter] using h2
  have hperm : List.Perm ((l.insertionSort r).filter (fun p => decide (key p = v)))
      (l.filter (fun p => decide (key p = v))) :=
    (List.perm_insertionSort r l).filter _
  exact (hsub2.eq_of_length hperm.length_eq.symm).symm

/-- The accumulation loop of `checkout`/`get_cart` computes the sum, over the
items, of `price × qty` for resolvable products and `0` for unresolvable
ones. -/
theorem cart_total_eq_sum (db : DB) (items : List CartItem) :
    cart_total db items =
      (items.map fun it =>
        match find_one_product db it.product_id with
        | none => 0
        | some prod => prod.price * (it.qty : ℚ)).sum := by
  have aux : ∀ (l : List CartItem) (a : ℚ),
      l.foldl (fun acc it =>
        match find_one_product db it.product_id with
        | none => acc
        | some prod => acc + prod.price * (it.qty : ℚ)) a =
      a + (l.map fun it =>
        match find_one_product db it.product_id with
        | none => 0
        | some prod => prod.price * (it.qty : ℚ)).sum := by
    intro l
    induction l with
    | nil => intro a; simp
    | cons x xs ih =>
      intro a
      cases hx : find_one_product db x.product_id with
      | none => simp [hx, ih]
      | some prod => simp [hx, ih]; ring
  simpa [cart_total] using aux items 0

/-- Explicit description of a successful (non-mock, non-empty-cart)
`checkout`: the order document is appended to the `order` collection and all
cart documents of this `cart_id` are removed; nothing else changes. -/
theorem checkout_ok (db : DB) (body : CheckoutRequest)
    (h : db.cart.filter (fun it => it.cart_id == body.cart_id) ≠ []) :
    checkout (some db) body =
      .ok (some
        { products := db.products
          cart := db.cart.filter fun it => !(it.cart_id == body.cart_id)
          orders := db.orders ++
            [{ cart_id := body.cart_id
               items := db.cart.filter fun it => it.cart_id == body.cart_id
               total := round2 (cart_total db
                 (db.cart.filter fun it => it.cart_id == body.cart_id))
               email := body.email
               status := "created" }] },
        .created db.orders.length) := by
  have hne : (db.cart.filter fun it => it.cart_id == body.cart_id).isEmpty = false := by
    simpa [List.isEmpty_iff] using h
  simp [checkout, hne]

/-! ## Claim theorems -/

/-- C2 (counterexample): the category filter of `list_products` is NOT
case-insensitive.  A store holding one product whose category is
`"face care"` — equal to the supplied `"Face Care"` up to letter case, as the
first two conjuncts certify — yields an empty result, although the claim says
the product is still returned. -/
theorem category_filter_not_case_insensitive :
    product_lowercase.category.data.map ascii_lower =
        "Face Care".data.map ascii_lower ∧
    product_lowercase.category ≠ "Face Care" ∧
    list_products (some ⟨[product_lowercase], [], []⟩)
      { category := some "Face Care" } = [] := by
  refine ⟨by decide, by decide, rfl⟩

/-- C2 (amended): for every non-empty category string `c`, a product is
included by the category filter if and only if its `category` field equals
`c` exactly, case-SENSITIVELY (so substring matches are excluded, but so are
case variants). -/
theorem category_filter_exact_match (db : DB) (c : String) (hc : c ≠ "")
    (p : Product) :
    p ∈ list_products (some db) { category := some c } ↔
      p ∈ db.products ∧ p.category = c := by
  simp [list_products, sort_products, List.mem_filter, matches_query,
    category_matches, ingredient_matches, q_matches, price_matches, hc]

/-- C2 (witness for the amended claim): instantiation at the one-product
store above with `c = "Face Care"` and the seed product. -/
theorem category_filter_exact_match_witness :
    product1 ∈ list_products (some ⟨[product1], [], []⟩)
        { category := some "Face Care" } ↔
      product1 ∈ [product1] ∧ product1.category = "Face Care" :=
  category_filter_exact_match ⟨[product1], [], []⟩ "Face Care" (by decide) product1

/-- C3 (counterexample): with no store configured (`db is None`),
`add_to_cart` does not fail with NotFound on an unresolvable product id — it
returns a success payload — contradicting "always fails with a NotFound (404)
error ... regardless of whether a store is configured". -/
theorem add_to_cart_mock_mode_succeeds :
    add_to_cart none ⟨"cart-1", 999, 1⟩ = .ok (none, ⟨true, "cart-1"⟩) := rfl

/-- C3 (amended): when a store is configured, `add_to_cart` on a product id
that resolves to no product fails with 404 "Product not found", and — the
exception aborting the handler before any insert — no cart document is
created; when no store is configured, the call is a no-op that echoes back a
success payload (and likewise creates no cart document). -/
theorem add_to_cart_invalid_product (db : DB) (body : AddToCartRequest)
    (h : find_one_product db body.product_id = none) :
    add_to_cart (some db) body = .error ⟨404, "Product not found"⟩ ∧
    ∀ b : AddToCartRequest, add_to_cart none b = .ok (none, ⟨true, b.cart_id⟩) :=
  ⟨by simp [add_to_cart, h], fun _ => rfl⟩

/-- C3 (witness for the amended claim): against the seeded store, id 999
resolves to no product and the add fails with 404. -/
theorem add_to_cart_invalid_product_witness :
    add_to_cart (some ⟨seed_products, [], []⟩) ⟨"cart-1", 999, 1⟩ =
      .error ⟨404, "Product not found"⟩ :=
  (add_to_cart_invalid_product ⟨seed_products, [], []⟩ ⟨"cart-1", 999, 1⟩ rfl).1

/-- C4: with a store configured, `checkout` on a cart id that has no cart
documents fails with 400 "Cart is empty"; the exception aborts the handler
before the order insert, so no order document is created.  The statement
quantifies over every store state and every request, so it covers in
particular a re-checkout on an already-consumed (hence empty) cart. -/
theorem checkout_empty_cart_fails (db : DB) (body : CheckoutRequest)
    (h : db.cart.filter (fun it => it.cart_id == body.cart_id) = []) :
    checkout (some db) body = .error ⟨400, "Cart is empty"⟩ := by
  simp [checkout, h]

/-- C4 (witness): checkout of a cart with no items against the seeded store. -/
theorem checkout_empty_cart_fails_witness :
    checkout (some ⟨seed_products, [], []⟩) ⟨"cart-A", none⟩ =
      .error ⟨400, "Cart is empty"⟩ :=
  checkout_empty_cart_fails ⟨seed_products, [], []⟩ ⟨"cart-A", none⟩ rfl

/-- C6: when the product id resolves, `add_to_cart` appends exactly one cart
document whose stored qty is `max 1 qty`: at least 1 always, and equal to 1
for every non-positive requested qty. -/
theorem add_to_cart_clamps_qty (db : DB) (body : AddToCartRequest)
    (prod : Product) (h : find_one_product db body.product_id = some prod) :
    add_to_cart (some db) body =
      .ok (some { db with
            cart := db.cart ++ [⟨body.cart_id, body.product_id, max 1 body.qty⟩] },
          ⟨true, body.cart_id⟩) ∧
    1 ≤ max 1 body.qty ∧ (body.qty ≤ 0 → max 1 body.qty = 1) := by
  refine ⟨by simp [add_to_cart, h], le_max_left 1 _, fun hq => ?_⟩
  omega

/-- C6 (witness): `add(cart, product 1, qty 0)` against the seeded store
stores qty 1. -/
theorem add_to_cart_clamps_qty_witness :
    add_to_cart (some ⟨seed_products, [], []⟩) ⟨"cart-A", 1, 0⟩ =
      .ok (some ⟨seed_products, [⟨"cart-A", 1, 1⟩], []⟩, ⟨true, "cart-A"⟩) := by
  have h := (add_to_cart_clamps_qty ⟨seed_products, [], []⟩ ⟨"cart-A", 1, 0⟩
    product1 rfl).1
  simpa using h

/-- Sums over the cart items are unchanged by dropping the items whose
product does not resolve, because those items contribute `0`. -/
theorem sum_over_resolvable (db : DB) (l : List CartItem) :
    ((l.filter fun it => (find_one_product db it.product_id).isSome).map fun it =>
      match find_one_product db it.product_id with
      | none => 0
      | some prod => prod.price * (it.qty : ℚ)).sum =
    (l.map fun it =>
      match find_one_product db it.product_id with
      | none => 0
      | some prod => prod.price * (it.qty : ℚ)).sum := by
  induction l with
  | nil => rfl
  | cons x xs ih =>
    cases hx : find_one_product db x.product_id with
    | none => simp [List.filter_cons, hx, ih]
    | some prod => simp [List.filter_cons, hx, ih]

/-- C7: a successful `checkout` deletes every cart document of the checked-out
`cart_id` (so a subsequent `get_cart` on it returns an empty item list and
total 0), appends exactly the new order document to the `order` collection —
the delete is sequenced after the successful order insert in the source —
and leaves the `product` collection and the cart documents of every other
`cart_id` untouched. -/
theorem checkout_consumes_cart (db : DB) (body : CheckoutRequest)
    (h : db.cart.filter (fun it => it.cart_id == body.cart_id) ≠ []) :
    ∃ oid db' od, checkout (some db) body = .ok (some db', .created oid) ∧
      db'.cart.filter (fun it => it.cart_id == body.cart_id) = [] ∧
      get_cart (some db') body.cart_id = ([], 0) ∧
      db'.orders = db.orders ++ [od] ∧
      db'.products = db.products ∧
      ∀ cid : String, cid ≠ body.cart_id →
        db'.cart.filter (fun it => it.cart_id == cid) =
          db.cart.filter (fun it => it.cart_id == cid) := by
  refine ⟨db.orders.length, _, _, checkout_ok db body h, ?_, ?_, rfl, rfl, ?_⟩
  · simp [List.filter_filter]
  · simp [get_cart, List.filter_filter, round2_zero]
  · intro cid hcid
    simp only [List.filter_filter]
    apply List.filter_congr
    intro it _
    by_cases hit : it.cart_id = cid
    · simp [hit, hcid]
    · simp [hit]

/-- C7 (witness): the two-item scenario cart; after checkout the cart id "A"
has no items, `get_cart` views it as empty with total 0, and the store gained
exactly one order. -/
theorem checkout_consumes_cart_witness :
    ∃ oid db' od,
      checkout (some ⟨seed_products, [⟨"A", 1, 2⟩, ⟨"A", 2, 1⟩], []⟩) ⟨"A", none⟩ =
        .ok (some db', .created oid) ∧
      db'.cart.filter (fun it => it.cart_id == "A") = [] ∧
      get_cart (some db') "A" = ([], 0) ∧
      db'.orders = [] ++ [od] ∧
      db'.products = seed_products := by
  obtain ⟨oid, db', od, h1, h2, h3, h4, h5, -⟩ :=
    checkout_consumes_cart ⟨seed_products, [⟨"A", 1, 2⟩, ⟨"A", 2, 1⟩], []⟩
      ⟨"A", none⟩ (by decide)
  exact ⟨oid, db', od, h1, h2, h3, h4, h5⟩

/-- C8: the total persisted by a successful `checkout` is exactly the spec's
Σ(price × qty) over the cart's items — taking the CURRENT product price,
skipping (i.e. adding 0 for) items whose product no longer resolves — rounded
to 2 decimal places. -/
theorem checkout_total_spec (db : DB) (body : CheckoutRequest)
    (h : db.cart.filter (fun it => it.cart_id == body.cart_id) ≠ []) :
    ∃ oid db', checkout (some db) body = .ok (some db', .created oid) ∧
      db'.orders = db.orders ++
        [{ cart_id := body.cart_id
           items := db.cart.filter fun it => it.cart_id == body.cart_id
           total := spec_total db (db.cart.filter fun it => it.cart_id == body.cart_id)
           email := body.email
           status := "created" }] := by
  refine ⟨db.orders.length, _, checkout_ok db body h, ?_⟩
  simp [spec_total, cart_total_eq_sum]

/-- C8 (witness): the scenario of the spec — qty 2 of the 24.99 product and
qty 1 of the 19.5 product — persists the total 69.48 exactly. -/
theorem checkout_total_spec_witness :
    ∃ oid db',
      checkout (some ⟨seed_products, [⟨"A", 1, 2⟩, ⟨"A", 2, 1⟩], []⟩) ⟨"A", none⟩ =
        .ok (some db', .created oid) ∧
      db'.orders = [{ cart_id := "A"
                      items := [⟨"A", 1, 2⟩, ⟨"A", 2, 1⟩]
                      total := (69.48 : ℚ)
                      email := none
                      status := "created" }] := by
  obtain ⟨oid, db', h1, h2⟩ :=
    checkout_total_spec ⟨seed_products, [⟨"A", 1, 2⟩, ⟨"A", 2, 1⟩], []⟩
      ⟨"A", none⟩ (by decide)
  refine ⟨oid, db', h1, ?_⟩
  rw [h2]
  have e1 : find_one_product ⟨seed_products, [⟨"A", 1, 2⟩, ⟨"A", 2, 1⟩], []⟩ 1 =
      some product1 := rfl
  have e2 : find_one_product ⟨seed_products, [⟨"A", 1, 2⟩, ⟨"A", 2, 1⟩], []⟩ 2 =
      some product2 := rfl
  have hfilter : ((⟨seed_products, [⟨"A", 1, 2⟩, ⟨"A", 2, 1⟩], []⟩ : DB).cart.filter
      fun it => it.cart_id == (⟨"A", none⟩ : CheckoutRequest).cart_id) =
      [⟨"A", 1, 2⟩, ⟨"A", 2, 1⟩] := rfl
  rw [hfilter]
  have htot : spec_total ⟨seed_products, [⟨"A", 1, 2⟩, ⟨"A", 2, 1⟩], []⟩
      [⟨"A", 1, 2⟩, ⟨"A", 2, 1⟩] = 69.48 := by
    rw [spec_total]
    simp only [List.map_cons, List.map_nil, e1, e2, List.sum_cons, List.sum_nil]
    rw [round2]
    norm_num [product1, product2]
  rw [htot]
  rfl

/-- C9: the order total is recomputed server-side from the store state alone.
The checkout request body (`CheckoutRequest`) carries only `cart_id` and an
optional `email`, and on identical store state two checkout runs compute the
same total whatever the client supplies besides `cart_id` — in particular the
email never influences the total. -/
theorem checkout_total_email_independent (db : DB) (cid : String)
    (e1 e2 : Option String) :
    checkout_total (some db) ⟨cid, e1⟩ = checkout_total (some db) ⟨cid, e2⟩ := by
  by_cases h : (db.cart.filter fun it => it.cart_id == cid) = []
  · simp [checkout_total, checkout, h]
  · unfold checkout_total
    rw [checkout_ok db ⟨cid, e1⟩ h, checkout_ok db ⟨cid, e2⟩ h]
    simp

/-- C10: a successful `checkout` snapshots the raw cart documents exactly as
read into the order's `items` — including items whose `product_id` no longer
resolves to any product — while the persisted total equals the rounded sum
over only the resolvable items (the unresolvable ones contribute 0). -/
theorem checkout_snapshots_raw_items (db : DB) (body : CheckoutRequest)
    (h : db.cart.filter (fun it => it.cart_id == body.cart_id) ≠ []) :
    ∃ oid db' od, checkout (some db) body = .ok (some db', .created oid) ∧
      db'.orders = db.orders ++ [od] ∧
      od.items = db.cart.filter (fun it => it.cart_id == body.cart_id) ∧
      od.total = round2 (((od.items.filter fun it =>
          (find_one_product db it.product_id).isSome).map fun it =>
        match find_one_product db it.product_id with
        | none => 0
        | some prod => prod.price * (it.qty : ℚ)).sum) := by
  refine ⟨db.orders.length, _, _, checkout_ok db body h, rfl, rfl, ?_⟩
  rw [cart_total_eq_sum, sum_over_resolvable]

/-- C10 (witness): a cart holding one resolvable item (product 1, qty 1) and
one unresolvable item (product id 999, qty 3): the order keeps the 999 item
verbatim in its snapshot while the total is just 24.99. -/
theorem checkout_snapshots_raw_items_witness :
    ∃ oid db' od,
      checkout (some ⟨seed_products, [⟨"B", 1, 1⟩, ⟨"B", 999, 3⟩], []⟩) ⟨"B", none⟩ =
        .ok (some db', .created oid) ∧
      db'.orders = [] ++ [od] ∧
      od.items = [⟨"B", 1, 1⟩, ⟨"B", 999, 3⟩] ∧
      find_one_product ⟨seed_products, [⟨"B", 1, 1⟩, ⟨"B", 999, 3⟩], []⟩ 999 = none ∧
      od.total = 24.99 := by
  obtain ⟨oid, db', od, h1, h2, h3, h4⟩ :=
    checkout_snapshots_raw_items ⟨seed_products, [⟨"B", 1, 1⟩, ⟨"B", 999, 3⟩], []⟩
      ⟨"B", none⟩ (by decide)
  have h3' : od.items = [⟨"B", 1, 1⟩, ⟨"B", 999, 3⟩] := h3
  refine ⟨oid, db', od, h1, h2, h3', rfl, ?_⟩
  rw [h3'] at h4
  have e1 : find_one_product ⟨seed_products, [⟨"B", 1, 1⟩, ⟨"B", 999, 3⟩], []⟩ 1 =
      some product1 := rfl
  have e999 : find_one_product ⟨seed_products, [⟨"B", 1, 1⟩, ⟨"B", 999, 3⟩], []⟩ 999 =
      none := rfl
  rw [h4]
  have hfl : (([⟨"B", 1, 1⟩, ⟨"B", 999, 3⟩] : List CartItem).filter fun it =>
      (find_one_product ⟨seed_products, [⟨"B", 1, 1⟩, ⟨"B", 999, 3⟩], []⟩
        it.product_id).isSome) = [⟨"B", 1, 1⟩] := rfl
  rw [hfl]
  simp only [List.map_cons, List.map_nil, e1, List.sum_cons, List.sum_nil]
  rw [round2]
  norm_num [product1]

/-- C5: `list_products` reorders only for the six recognized sort keys — any
other or omitted `sort` value returns the input order unchanged — and each
recognized key yields a stable sort: a permutation, sorted by the key
(price ascending/descending, name lexicographically ascending/descending,
popularity descending, rating descending), in which the records carrying any
fixed key value keep their prior relative order. -/
theorem sort_semantics (l : List Product) :
    (∀ s : Option String, s ∉ recognized_sorts → sort_products s l = l) ∧
    (List.Perm (sort_products (some "price_asc") l) l ∧
      (sort_products (some "price_asc") l).Sorted price_le ∧
      ∀ v : ℚ, (sort_products (some "price_asc") l).filter (fun p => decide (p.price = v)) =
        l.filter (fun p => decide (p.price = v))) ∧
    (List.Perm (sort_products (some "price_desc") l) l ∧
      (sort_products (some "price_desc") l).Sorted price_ge ∧
      ∀ v : ℚ, (sort_products (some "price_desc") l).filter (fun p => decide (p.price = v)) =
        l.filter (fun p => decide (p.price = v))) ∧
    (List.Perm (sort_products (some "name_asc") l) l ∧
      (sort_products (some "name_asc") l).Sorted name_le ∧
      ∀ v : String, (sort_products (some "name_asc") l).filter (fun p => decide (p.name = v)) =
        l.filter (fun p => decide (p.name = v))) ∧
    (List.Perm (sort_products (some "name_desc") l) l ∧
      (sort_products (some "name_desc") l).Sorted name_ge ∧
      ∀ v : String, (sort_products (some "name_desc") l).filter (fun p => decide (p.name = v)) =
        l.filter (fun p => decide (p.name = v))) ∧
    (List.Perm (sort_products (some "popularity") l) l ∧
      (sort_products (some "popularity") l).Sorted pop_ge ∧
      ∀ v : Int, (sort_products (some "popularity") l).filter (fun p => decide (p.popularity = v)) =
        l.filter (fun p => decide (p.popularity = v))) ∧
    (List.Perm (sort_products (some "rating") l) l ∧
      (sort_products (some "rating") l).Sorted rating_ge ∧
      ∀ v : ℚ, (sort_products (some "rating") l).filter (fun p => decide (p.rating = v)) =
        l.filter (fun p => decide (p.rating = v))) := by
  refine ⟨fun s hs => sort_products_unrecognized s hs l, ⟨?_, ?_, ?_⟩, ⟨?_, ?_, ?_⟩,
    ⟨?_, ?_, ?_⟩, ⟨?_, ?_, ?_⟩, ⟨?_, ?_, ?_⟩, ⟨?_, ?_, ?_⟩⟩
  · exact List.perm_insertionSort price_le l
  · exact List.sorted_insertionSort price_le l
  · exact fun v => filter_insertionSort_eq price_le (fun p => p.price)
      (fun a b hab => le_of_eq hab) l v
  · exact List.perm_insertionSort price_ge l
  · exact List.sorted_insertionSort price_ge l
  · exact fun v => filter_insertionSort_eq price_ge (fun p => p.price)
      (fun a b hab => le_of_eq hab.symm) l v
  · exact List.perm_insertionSort name_le l
  · exact List.sorted_insertionSort name_le l
  · exact fun v => filter_insertionSort_eq name_le (fun p => p.name)
      (fun a b hab => le_of_eq (congrArg String.data hab)) l v
  · exact List.perm_insertionSort name_ge l
  · exact List.sorted_insertionSort name_ge l
  · exact fun v => filter_insertionSort_eq name_ge (fun p => p.name)
      (fun a b hab => le_of_eq (congrArg String.data hab.symm)) l v
  · exact List.perm_insertionSort pop_ge l
  · exact List.sorted_insertionSort pop_ge l
  · exact fun v => filter_insertionSort_eq pop_ge (fun p => p.popularity)
      (fun a b hab => le_of_eq hab.symm) l v
  · exact List.perm_insertionSort rating_ge l
  · exact List.sorted_insertionSort rating_ge l
  · exact fun v => filter_insertionSort_eq rating_ge (fun p => p.rating)
      (fun a b hab => le_of_eq hab.symm) l v

/-- C5 (witness): an unrecognized sort key leaves the (store-shaped) list in
input order. -/
theorem sort_semantics_witness :
    sort_products (some "banana") fallback = fallback :=
  (sort_semantics fallback).1 (some "banana") (by decide)

/-- C1 (counterexample): the fallback path of `list_products` does NOT apply
the filter semantics: with the store populated identically to the fallback
dataset, the category filter "Hair Care" returns one product on the store
path but all six on the fallback path. -/
theorem fallback_ignores_filters_counterexample :
    (list_products none { category := some "Hair Care" }).length ≠
      (list_products (some ⟨fallback, [], []⟩) { category := some "Hair Care" }).length := by
  decide

/-- C1 (amended): the fallback path returns the whole static fallback dataset
unchanged, ignoring every filter and sort parameter; consequently the two
paths agree over identically-populated data exactly in the degenerate case —
no active category/ingredient/free-text filter (omitted or empty string), no
price bound, and an omitted or unrecognized sort key. -/
theorem fallback_equals_store_only_unfiltered (f : Filters)
    (hcat : f.category = none ∨ f.category = some "")
    (hing : f.ingredient = none ∨ f.ingredient = some "")
    (hq : f.q = none ∨ f.q = some "")
    (hmin : f.min_price = none) (hmax : f.max_price = none)
    (hsort : f.sort ∉ recognized_sorts) :
    (∀ g : Filters, list_products none g = fallback) ∧
    list_products (some ⟨fallback, [], []⟩) f = list_products none f := by
  refine ⟨fun _ => rfl, ?_⟩
  show sort_products f.sort (fallback.filter (matches_query f)) = fallback
  have hm : ∀ p, matches_query f p = true := by
    intro p
    unfold matches_query category_matches ingredient_matches q_matches price_matches
    rcases hcat with h | h <;> rcases hing with h2 | h2 <;> rcases hq with h3 | h3 <;>
      simp [h, h2, h3, hmin, hmax]
  rw [sort_products_unrecognized f.sort hsort,
    List.filter_eq_self.mpr fun p _ => hm p]

/-- C1 (witness for the amended claim): with every parameter omitted the two
paths agree. -/
theorem fallback_equals_store_only_unfiltered_witness :
    (∀ g : Filters, list_products none g = fallback) ∧
    list_products (some ⟨fallback, [], []⟩) {} = list_products none {} :=
  fallback_equals_store_only_unfiltered {} (Or.inl rfl) (Or.inl rfl) (Or.inl rfl)
    rfl rfl (by decide)
